import Mathlib

/-!
Verification development for the Inbound Genie dashboard.

The definitions below are shallow embeddings of the functions of the program:
frontend transcript parsing (`TranscriptDisplay`), the onboarding tour
component (`OnboardingTour`), the AI prompt sidebar (`AIPromptSidebar`),
the Express auth routes (`routes/auth.js`) and webhook routes
(`routes/webhooks.js`), and the `handle_new_user` Postgres trigger.
JavaScript strings are modelled as Lean `String`, JS numbers holding
millisecond timestamps as `Int`, and database tables as lists of rows.
External collaborators (SMTP, OpenAI, Supabase auth internals, crypto
HMAC) are passed in as explicit parameters.
-/

/-! ## JavaScript string primitives -/

/-- ASCII whitespace recognised by JS `\s`, `trim`, for the character data
appearing in this codebase. -/
def isJsWs (c : Char) : Bool :=
  c = ' ' || c = '\t' || c = '\n' || c = '\r' || c = '\x0b' || c = '\x0c'

/-- JS `String.prototype.trim`. -/
def jsTrim (s : String) : String :=
  String.mk (((s.toList.dropWhile isJsWs).reverse.dropWhile isJsWs).reverse)

/-- JS `String.prototype.toLowerCase` (ASCII letters). -/
def jsToLower (s : String) : String :=
  String.mk (s.toList.map Char.toLower)

/-- JS truthiness of an optional string field: `undefined` and `""` are falsy. -/
def jsFalsy : Option String → Bool
  | none => true
  | some s => s = ""

/-- JS `String.prototype.includes`. -/
def jsIncludes (s pat : String) : Bool :=
  decide (List.IsInfix pat.toList s.toList)

/-- JS `String.prototype.startsWith`. -/
def jsStartsWith (s pat : String) : Bool :=
  pat.toList.isPrefixOf s.toList

/-- JS `split` with a single-character separator, one character at a time;
`acc` holds the current piece reversed. -/
def splitAtChar (sep : Char) : List Char → List Char → List (List Char)
  | [], acc => [acc.reverse]
  | c :: rest, acc =>
      if c = sep then acc.reverse :: splitAtChar sep rest []
      else splitAtChar sep rest (c :: acc)

/-- Test of the regex `/^[^\s@]+@[^\s@]+\.[^\s@]+$/` used by the auth routes
to validate emails: exactly one `@`, no whitespace, a non-empty local part,
and a domain containing an interior dot. -/
def emailRegexTest (s : String) : Bool :=
  let ok (c : Char) : Bool := !(isJsWs c) && c ≠ '@'
  match splitAtChar '@' s.toList [] with
  | [a, bl] =>
      a ≠ [] && a.all ok && bl.all ok &&
        (List.range bl.length).any (fun i =>
          decide (0 < i) && decide (i + 1 < bl.length) && bl.getD i ' ' = '.')
  | _ => false

/-- Test of the regex `/^\d{6}$/` guarding OTP tokens. -/
def sixDigitTest (s : String) : Bool :=
  s.length = 6 && s.toList.all Char.isDigit

/-- JS `Math.ceil(a / 1000)` on an integer number of milliseconds. -/
def jsCeilDiv1000 (a : Int) : Int :=
  Int.fdiv (a + 999) 1000

/-! ## Transcript speaker attribution (`TranscriptDisplay`)

Embeds `parseTranscript` and `identifySpeaker` for the plain-text
fallback path (no structured metadata). -/

/-- The roles of the `TranscriptSegment` interface. -/
inductive Role where
  | agent
  | user
  | assistant
  | human
deriving DecidableEq, Repr

/-- A parsed transcript segment (timestamps are absent on the plain path). -/
structure TranscriptSegment where
  role : Role
  text : String
deriving DecidableEq, Repr

/-- The `agentIndicators` phrase list of `identifySpeaker`. -/
def agentIndicators : List String :=
  ["how can i assist", "how can i help", "how are you doing", "thank you for",
   "i\x27m here to", "i\x27d be happy to", "let me help", "i understand",
   "i\x27m sorry to hear", "would you like", "is there anything", "can i help",
   "what can i do", "i can help", "i\x27ll be happy", "please let me know",
   "feel free to", "i\x27m here", "good morning", "good afternoon",
   "good evening", "hello!", "hi there"]

/-- The `humanIndicators` phrase list of `identifySpeaker`. -/
def humanIndicators : List String :=
  ["i am", "i\x27m", "yes", "no", "okay", "ok", "sure", "thanks", "thank you",
   "i want", "i need", "i have", "i think", "i feel"]

/-- `(text.match(/\?/g) || []).length`. -/
def questionCount (text : String) : Nat :=
  text.toList.count '?'

/-- The greeting regex `/^(hello|hi|hey|good (morning|afternoon|evening))/`
tested against the lowercased text. -/
def startsWithGreeting (lowerText : String) : Bool :=
  ["hello", "hi", "hey", "good morning", "good afternoon", "good evening"].any
    (fun p => jsStartsWith lowerText p)

/-- `startsWithAgentPhrase` of `identifySpeaker`. -/
def startsWithAgentPhrase (lowerText : String) : Bool :=
  agentIndicators.any (fun p => jsStartsWith lowerText p)

/-- `hasProfessionalLanguage` of `identifySpeaker`. -/
def hasProfessionalLanguage (lowerText : String) : Bool :=
  jsIncludes lowerText "assist" || jsIncludes lowerText "help" ||
  jsIncludes lowerText "please" || jsIncludes lowerText "thank you" ||
  jsIncludes lowerText "understand"

/-- The `agentScore` accumulated by `identifySpeaker`. -/
def agentScore (text : String) : Nat :=
  let lowerText := jsToLower (jsTrim text)
  let hasMultipleQuestions := 2 ≤ questionCount text
  let isLongResponse := 150 < text.length
  (if startsWithAgentPhrase lowerText then 3 else 0) +
  (if hasMultipleQuestions then 2 else 0) +
  (if isLongResponse && hasProfessionalLanguage lowerText then 2 else 0) +
  (if hasProfessionalLanguage lowerText then 1 else 0)

/-- The `humanScore` accumulated by `identifySpeaker`. -/
def humanScore (text : String) : Nat :=
  let lowerText := jsToLower (jsTrim text)
  let startsWithHumanPhrase := humanIndicators.any (fun p => jsStartsWith lowerText p)
  (if startsWithHumanPhrase then 2 else 0) +
  (if text.length < 50 && !startsWithAgentPhrase lowerText then 1 else 0) +
  (if questionCount text = 0 && text.length < 100 then 1 else 0)

/-- The role-scoring logic of `identifySpeaker`: the greeting early
return precedes the score comparison; a score tie defaults to `agent`. -/
def identifyRole (text : String) : Role :=
  let lowerText := jsToLower (jsTrim text)
  if startsWithGreeting lowerText then Role.agent
  else if humanScore text < agentScore text then Role.agent
  else if agentScore text < humanScore text then Role.user
  else Role.agent

/-- `identifySpeaker`: returns the segment with its identified role. -/
def identifySpeaker (text : String) : TranscriptSegment :=
  { role := identifyRole text, text := text }

/-- The context-rule regex `/^(how|what|when|where|why|can|would|is|are|do|does)/i`. -/
def startsWithQuestionWord (text : String) : Bool :=
  ["how", "what", "when", "where", "why", "can", "would", "is", "are", "do", "does"].any
    (fun p => jsStartsWith (jsToLower text) p)

/-- The context-carry adjustment applied in `parseTranscript` for segments
after the first, using the previous raw segment. -/
def contextAdjust (prevSegment : String) (seg : TranscriptSegment) : TranscriptSegment :=
  let prevRole := (identifySpeaker prevSegment).role
  let seg1 :=
    if prevRole = Role.agent && seg.text.length < 100 && !startsWithQuestionWord seg.text
    then { seg with role := Role.user } else seg
  if prevRole = Role.user && 100 < seg1.text.length && 1 ≤ questionCount seg1.text
  then { seg1 with role := Role.agent } else seg1

/-- Splitter for the regex `/\n\n+/`: a maximal run of two or more
newlines is a delimiter.  `pendingNl` counts newlines seen but not yet
classified; `acc` holds the current segment reversed. -/
def splitBlankAux : List Char → Nat → List Char → List (List Char)
  | [], pendingNl, acc =>
      if 2 ≤ pendingNl then [acc.reverse, []]
      else [(List.replicate pendingNl '\n' ++ acc).reverse]
  | '\n' :: rest, pendingNl, acc => splitBlankAux rest (pendingNl + 1) acc
  | c :: rest, pendingNl, acc =>
      if 2 ≤ pendingNl then acc.reverse :: splitBlankAux rest 0 [c]
      else splitBlankAux rest 0 (c :: (List.replicate pendingNl '\n' ++ acc))

/-- `transcript.split(/\n\n+/)`. -/
def splitOnBlankLines (s : String) : List String :=
  (splitBlankAux s.toList 0 []).map String.mk

/-- The lookbehind class `[.!?]` of the sentence-boundary regex. -/
def isSentencePunct (c : Char) : Bool :=
  c = '.' || c = '!' || c = '?'

/-- The lookahead class `[A-Z]` of the sentence-boundary regex. -/
def isAsciiUpper (c : Char) : Bool :=
  'A' ≤ c && c ≤ 'Z'

/-- Splitter for the regex `/(?<=[.!?])\s+(?=[A-Z])/`: a maximal whitespace
run preceded by `.`, `!` or `?` and followed by an ASCII capital is a
delimiter.  `pendingWs` holds (reversed) a whitespace run that began right
after a sentence punctuation character and is not yet classified; `acc`
holds the current segment reversed, so its head is the lookbehind
character. -/
def splitSentencesAux : List Char → List Char → List Char → List (List Char)
  | [], pendingWs, acc => [(pendingWs ++ acc).reverse]
  | c :: rest, pendingWs, acc =>
      if isJsWs c then
        if pendingWs ≠ [] then splitSentencesAux rest (c :: pendingWs) acc
        else if isSentencePunct (acc.headD ' ') then splitSentencesAux rest [c] acc
        else splitSentencesAux rest [] (c :: acc)
      else
        if pendingWs ≠ [] && isAsciiUpper c then
          acc.reverse :: splitSentencesAux rest [] [c]
        else splitSentencesAux rest [] (c :: (pendingWs ++ acc))

/-- `segments[0].split(/(?<=[.!?])\s+(?=[A-Z])/)`. -/
def splitSentences (s : String) : List String :=
  (splitSentencesAux s.toList [] []).map String.mk

/-- The `.map(text => text.trim()).filter(text => text.length > 0)`
post-processing applied after each split. -/
def trimFilter (l : List String) : List String :=
  (l.map jsTrim).filter (fun text => decide (0 < text.length))

/-- The three-stage segmentation of the plain-text fallback in
`parseTranscript`: blank-line split, then single-newline split when at most
one segment resulted, then sentence-boundary split when a single segment
longer than 200 characters remains.  Each stage trims and drops empty
segments. -/
def plainSegments (transcript : String) : List String :=
  let segs1 := trimFilter (splitOnBlankLines transcript)
  let segs2 :=
    if segs1.length ≤ 1 then
      trimFilter ((splitAtChar '\n' transcript.toList []).map String.mk)
    else segs1
  match segs2 with
  | [x] =>
      if 200 < x.length then trimFilter (splitSentences x)
      else segs2
  | _ => segs2

/-- The indexed map at the end of `parseTranscript`: the first segment gets
`identifySpeaker` alone; later segments are adjusted using the previous raw
segment. -/
def processSegments : Option String → List String → List TranscriptSegment
  | _, [] => []
  | none, text :: rest => identifySpeaker text :: processSegments (some text) rest
  | some prev, text :: rest =>
      contextAdjust prev (identifySpeaker text) :: processSegments (some text) rest

/-- `parseTranscript` on a plain transcript string (no structured
metadata): the early return for a falsy transcript, then segmentation and
speaker identification. -/
def parseTranscriptPlain (transcript : String) : List TranscriptSegment :=
  if transcript = "" then []
  else processSegments none (plainSegments transcript)

/-! ## Onboarding tour engine (`OnboardingTour`) -/

/-- The `TourStep` interface. -/
structure TourStep where
  id : String
  title : String
  description : String
  target : String
  position : Option String
  route : Option String
deriving DecidableEq, Repr

/-- The 31-step `tourSteps` array of `OnboardingTour`. -/
def tourSteps : List TourStep := [
  { id := "dashboard-overview",
    title := "Welcome to Your Dashboard!",
    description := "This is your main command center. Here you\x27ll see an overview of all your activity including total calls, leads generated, active agents, and your current credit balance. The dashboard updates in real-time as your agents make calls.",
    target := "[data-tour=\x27dashboard-header\x27]",
    position := some "bottom", route := some "/dashboard" },
  { id := "dashboard-metrics",
    title := "Key Performance Metrics",
    description := "These four cards show your most important metrics: Total Calls (all calls made), Total Leads (qualified prospects), Active Agents (currently running), and Credits Balance (remaining call time). Click any card to see more details.",
    target := "[data-tour=\x27dashboard-metrics\x27]",
    position := some "top", route := some "/dashboard" },
  { id := "dashboard-credits",
    title := "Credits & Usage Tracking",
    description := "Your credit balance shows how many minutes you have available. Credits are consumed at 1 credit per minute of call time. Click this card to view detailed usage breakdown, see which agents use the most credits, and track your spending over time.",
    target := "[data-tour=\x27credits-card\x27]",
    position := some "top", route := some "/dashboard" },
  { id := "dashboard-create-agent",
    title := "Create Your First Agent",
    description := "Click this button to create your first AI voice agent. You\x27ll configure the agent\x27s name, voice, role (inbound for receiving calls or outbound for making calls), and behavior. Agents can handle conversations naturally using AI.",
    target := "[data-tour=\x27create-agent-button\x27]",
    position := some "bottom", route := some "/dashboard" },
  { id := "dashboard-activity",
    title := "Recent Activity Feed",
    description := "This section shows your latest calls and leads in real-time. You can see call status, duration, and which agent handled each call. Click \x27View Full History\x27 to see all calls with advanced filtering and search options.",
    target := "[data-tour=\x27recent-activity\x27]",
    position := some "top", route := some "/dashboard" },
  { id := "dashboard-charts",
    title := "Performance Analytics",
    description := "The charts show your performance trends over the last 7 days. The area chart displays calls vs leads, while the pie chart shows call outcomes (completed, failed, in-progress). Use these to track your success rate and optimize your agents.",
    target := "[data-tour=\x27dashboard-charts\x27]",
    position := some "top", route := some "/dashboard" },
  { id := "agents-overview",
    title := "Manage Your AI Agents",
    description := "This is your agent management center. Here you can view all your AI voice agents, see their status (active/inactive), edit their configurations, test them, and monitor their performance. Each agent can handle different types of conversations.",
    target := "[data-tour=\x27agents-header\x27]",
    position := some "bottom", route := some "/bots" },
  { id := "agents-stats",
    title := "Agent Statistics",
    description := "These cards show your agent metrics: Total Agents (all agents you\x27ve created), Active Agents (currently running and handling calls), and Inactive Agents (paused or stopped). Keep agents active to handle calls automatically.",
    target := "[data-tour=\x27agents-stats\x27]",
    position := some "top", route := some "/bots" },
  { id := "agents-create",
    title := "Create a New Agent",
    description := "Click this button to create a new agent. You\x27ll configure: Agent Name, Description, Role (Inbound receives calls, Outbound makes calls), Voice Selection, AI Prompt/Instructions, Phone Number Linking, and Advanced Settings like call scheduling and webhooks.",
    target := "[data-tour=\x27create-agent-btn\x27]",
    position := some "bottom", route := some "/bots" },
  { id := "agent-editor-overview",
    title := "Agent Configuration",
    description := "This is the agent editor where you configure all agent settings. Use the tabs to navigate: Details (name, description, role), Voice (select voice and test), Settings (prompt, knowledge base, scheduling), and Logs (view call history for this agent).",
    target := "[data-tour=\x27agent-editor-header\x27]",
    position := some "bottom", route := some "/bots/create" },
  { id := "agent-editor-details",
    title := "Agent Basic Details",
    description := "Set your agent\x27s name and description. Choose the Agent Role: Inbound agents answer incoming calls, Outbound agents make calls to prospects. The role determines how the agent behaves and what features are available.",
    target := "[data-tour=\x27agent-details\x27]",
    position := some "top", route := some "/bots/create" },
  { id := "agent-editor-voice",
    title := "Voice Selection",
    description := "Choose a voice for your agent from our library. You can filter by gender, accent, age, and provider. Click \x27Test Voice\x27 to hear how it sounds. The voice you select will be used for all calls made by this agent.",
    target := "[data-tour=\x27agent-voice\x27]",
    position := some "top", route := some "/bots/create" },
  { id := "agent-editor-prompt",
    title := "AI Prompt & Instructions",
    description := "This is where you define what your agent says and how it behaves. Write a detailed prompt explaining the agent\x27s purpose, conversation flow, and how to handle different scenarios. You can also attach a Knowledge Base for the agent to reference during calls.",
    target := "[data-tour=\x27agent-prompt\x27]",
    position := some "top", route := some "/bots/create" },
  { id := "agent-editor-phone",
    title := "Link Phone Number",
    description := "Link a phone number to this agent so it can receive or make calls. Select from your imported phone numbers. Each agent can have one phone number, and each number can only be linked to one agent at a time.",
    target := "[data-tour=\x27agent-phone\x27]",
    position := some "top", route := some "/bots/create" },
  { id := "phone-numbers-overview",
    title := "Phone Number Management",
    description := "Import and manage your phone numbers here. Phone numbers are required for agents to make or receive calls. You can import numbers from your existing phone service provider and link them to your agents.",
    target := "[data-tour=\x27phone-numbers-header\x27]",
    position := some "bottom", route := some "/phone-numbers" },
  { id := "phone-numbers-import",
    title := "Import a Phone Number",
    description := "To import a number: 1) Enter a name (optional) for easy identification, 2) Enter the phone number in E.164 format (e.g., +14157774444), 3) Enter the termination URI from your provider (e.g., someuri.pstn.twilio.com), 4) Click Import. The number will be available to link to agents.",
    target := "[data-tour=\x27import-form\x27]",
    position := some "top", route := some "/phone-numbers" },
  { id := "phone-numbers-list",
    title := "Manage Imported Numbers",
    description := "View all your imported numbers here. You can see which numbers are linked to agents, unlink them, or delete numbers you no longer need. Click \x27Link Agent\x27 to connect a number to an agent, or \x27Unlink\x27 to disconnect it.",
    target := "[data-tour=\x27phone-numbers-list\x27]",
    position := some "top", route := some "/phone-numbers" },
  { id := "calls-overview",
    title := "Call History & Analytics",
    description := "View all your call records in one place. See call status, duration, transcripts, recordings, and detailed metadata. Filter by status, date range, or agent. Export data to CSV for analysis. Click any call to see full details including transcript and recording.",
    target := "[data-tour=\x27calls-header\x27]",
    position := some "bottom", route := some "/calls" },
  { id := "calls-stats",
    title := "Call Statistics Dashboard",
    description := "These cards show your call performance metrics: Total Calls (all time), Completed (successful calls), In Progress (currently active), Failed (unsuccessful), and Pending (scheduled). Use these to track your success rate and identify issues.",
    target := "[data-tour=\x27calls-stats\x27]",
    position := some "top", route := some "/calls" },
  { id := "calls-filters",
    title := "Filter & Export Calls",
    description := "Use the Filters button to filter calls by status (completed, failed, in-progress, etc.). Click \x27Export CSV\x27 to download all call data including transcripts, recordings, and metadata for analysis in Excel or other tools.",
    target := "[data-tour=\x27calls-filters\x27]",
    position := some "top", route := some "/calls" },
  { id := "calls-table",
    title := "Call Details Table",
    description := "This table shows all your calls with key information: phone number, contact name, status, duration, agent used, timestamps, and quick access to transcripts and recordings. Click any row to see full call details including the complete conversation transcript.",
    target := "[data-tour=\x27calls-table\x27]",
    position := some "top", route := some "/calls" },
  { id := "leads-overview",
    title := "Leads Management",
    description := "View and manage all your qualified leads here. Leads come from two sources: 1) Landing page form submissions, and 2) Calls where the agent identified the prospect as a qualified lead. You can contact leads, add notes, and track their status.",
    target := "[data-tour=\x27leads-header\x27]",
    position := some "bottom", route := some "/leads" },
  { id := "leads-actions",
    title := "Lead Actions",
    description := "For each lead, you can: Send Email (contact them directly), View Details (see full information), Mark Status (qualified, contacted, converted), and Add Notes. Leads are automatically created when agents identify prospects during calls.",
    target := "[data-tour=\x27leads-actions\x27]",
    position := some "top", route := some "/leads" },
  { id := "knowledge-bases-overview",
    title := "Knowledge Bases",
    description := "Knowledge Bases provide information to your agents during calls. Upload documents, add text content, or provide URLs. Agents can reference this information to answer questions accurately. Create separate knowledge bases for different topics or products.",
    target := "[data-tour=\x27knowledge-bases-header\x27]",
    position := some "bottom", route := some "/knowledge-bases" },
  { id := "knowledge-bases-create",
    title := "Create Knowledge Base",
    description := "Click \x27Create Knowledge Base\x27 to add information for your agents. You can: 1) Upload documents (PDF, TXT, DOCX), 2) Add text content directly, 3) Provide URLs for agents to reference. Enable auto-refresh to keep URLs updated automatically.",
    target := "[data-tour=\x27knowledge-bases-create\x27]",
    position := some "top", route := some "/knowledge-bases" },
  { id := "billing-overview",
    title := "Billing & Credits Management",
    description := "Manage your account credits, subscriptions, and billing here. Credits are used for making calls (1 credit = 1 minute). You can purchase one-time credit packages or subscribe to monthly plans that include credits. View invoices and payment history.",
    target := "[data-tour=\x27billing-header\x27]",
    position := some "bottom", route := some "/billing" },
  { id := "billing-credits",
    title := "Credit Balance & Usage",
    description := "Your current credit balance shows available minutes. Total Minutes Used shows lifetime usage. Total Credits Used shows all credits consumed. Click \x27Add Credits\x27 to purchase more, or view the Plans tab to subscribe to monthly packages.",
    target := "[data-tour=\x27credit-balance\x27]",
    position := some "top", route := some "/billing" },
  { id := "billing-plans",
    title := "Subscription Plans",
    description := "Choose a monthly subscription plan that fits your needs. Plans include monthly credit allocations that reset each month. Starter plans are great for small businesses, while Enterprise plans offer custom pricing for high-volume users. Subscribe to save on credits.",
    target := "[data-tour=\x27billing-plans\x27]",
    position := some "top", route := some "/billing" },
  { id := "billing-invoices",
    title := "Invoices & Payments",
    description := "View all your invoices here. When you subscribe to a plan, an invoice is generated. Complete the payment and mark it as paid to activate your subscription. Invoices show the package, amount, date, and payment status. Download invoices for your records.",
    target := "[data-tour=\x27billing-invoices\x27]",
    position := some "top", route := some "/billing" },
  { id := "billing-history",
    title := "Purchase History",
    description := "See all your credit purchases and subscriptions here. Track when you bought credits, which packages you purchased, prices paid, and credits received. This helps you monitor your spending and plan future purchases.",
    target := "[data-tour=\x27billing-history\x27]",
    position := some "top", route := some "/billing" },
  { id := "settings-overview",
    title := "Account Settings",
    description := "Manage your account settings here. Configure your profile, timezone, security settings (2FA, password), company information, KYC verification, and more. The General tab includes timezone settings and the option to restart this tour.",
    target := "[data-tour=\x27settings-header\x27]",
    position := some "bottom", route := some "/settings" }]

/-- `handleNext`: advances to the next step, or invokes `handleComplete`
on the last step (second component `true`), leaving the index unchanged. -/
def handleNext (currentStep : Nat) : Nat × Bool :=
  if currentStep < tourSteps.length - 1 then (currentStep + 1, false)
  else (currentStep, true)

/-- `handlePrevious`: moves back one step unless at the first step. -/
def handlePrevious (currentStep : Nat) : Nat :=
  if 0 < currentStep then currentStep - 1 else currentStep

/-- The `purchase` sub-object of a `cost_breakdown` JSON blob, as far as
the duplicate-reward check inspects it. -/
structure PurchaseInfo where
  description : Option String
deriving DecidableEq, Repr

/-- A `cost_breakdown` JSON blob, as far as the duplicate-reward check
inspects it. -/
structure CostBreakdown where
  description : Option String
  purchase : Option PurchaseInfo
deriving DecidableEq, Repr

/-- A `credit_usage_logs` row (the columns the tour component touches). -/
structure CreditUsageLog where
  user_id : String
  usage_type : String
  cost_breakdown : Option CostBreakdown
deriving DecidableEq, Repr

/-- The database state the tour handlers read and write: the per-user
profile columns and the credit ledger. -/
structure TourDB where
  tour_completed : Bool
  Remaning_credits : Int
  credit_usage_logs : List CreditUsageLog
deriving DecidableEq, Repr

/-- The reward description written and searched for by `markTourCompleted`. -/
def tourRewardDescription : String :=
  "Free trial credits - Tour completion reward"

/-- Modelled from the spec: `addCredits` (imported from `@/lib/credits`,
whose source is not provided) appends a `credit_usage_logs` ledger row of
usage type `other` whose `cost_breakdown` description is the given
description, and increases the profile credit balance by `amount`.
The fourth argument is the idempotency reference string built at the call
site; the spec records no use of it in the ledger row. -/
def addCredits (uid : String) (amount : Int) (description : String)
    (reference : String) (db : TourDB) : TourDB :=
  let _ := reference
  { db with
    Remaning_credits := db.Remaning_credits + amount,
    credit_usage_logs := db.credit_usage_logs ++
      [{ user_id := uid, usage_type := "other",
         cost_breakdown := some { description := some description, purchase := none } }] }

/-- The per-row test of the duplicate-reward check: the `cost_breakdown`
description, or its `purchase.description`, equals the reward string. -/
def breakdownMatches (log : CreditUsageLog) : Bool :=
  match log.cost_breakdown with
  | some b =>
      b.description = some tourRewardDescription ||
        (match b.purchase with
         | some p => p.description = some tourRewardDescription
         | none => false)
  | none => false

/-- The read phase of `markTourCompleted`: query the per-user
`credit_usage_logs` rows of usage type `other` and test each with
`breakdownMatches`. -/
def tourCheckPhase (uid : String) (db : TourDB) : Bool :=
  (db.credit_usage_logs.filter
    (fun log => log.user_id = uid && log.usage_type = "other")).any breakdownMatches

/-- The write phase of `markTourCompleted`: mark the tour completed, then
deposit the 100-credit reward via `addCredits` unless the read phase found
a prior grant. -/
def tourGrantPhase (uid : String) (nowMs : Int) (creditsAlreadyGranted : Bool)
    (db : TourDB) : TourDB :=
  let db1 := { db with tour_completed := true }
  if !creditsAlreadyGranted then
    addCredits uid 100 tourRewardDescription
      ("tour_completion_" ++ uid ++ "_" ++ toString nowMs) db1
  else db1

/-- `markTourCompleted` on its success path (logs query and profile update
succeed): returns the grant flag the function returns (`true` iff credits
were deposited) together with the updated database. -/
def markTourCompleted (uid : String) (nowMs : Int) (db : TourDB) : Bool × TourDB :=
  let creditsAlreadyGranted := tourCheckPhase uid db
  (!creditsAlreadyGranted, tourGrantPhase uid nowMs creditsAlreadyGranted db)

/-- `handleSkip` on its success path: marks the tour completed; the body
contains no call to `addCredits`, so the ledger and balance are untouched. -/
def handleSkip (db : TourDB) : TourDB :=
  { db with tour_completed := true }

/-! ## Webhook routes (`routes/webhooks.js`) -/

/-- An inbound webhook request: the signature header (if any), the
`JSON.stringify` of the body, and whether the body is an object (so that
destructuring / property access does not throw). -/
structure WebhookRequest where
  signature : Option String
  payload : String
  bodyPresent : Bool

/-- `verifyWebhookSignature`: skip when no secret is configured, fail when
no signature header is present, otherwise HMAC-compare.  `hmacHex` is the
external `crypto.createHmac(...).digest("hex")`.  `crypto.timingSafeEqual`
throws when the two buffers have different lengths, modelled as `.error`. -/
def verifyWebhookSignature (hmacHex : String → String → String)
    (req : WebhookRequest) (secret : String) : Except Unit Bool :=
  if secret = "" then .ok true
  else
    match req.signature with
    | none => .ok false
    | some sig =>
        let expectedSignature := hmacHex secret req.payload
        if sig.utf8ByteSize ≠ expectedSignature.utf8ByteSize then .error ()
        else .ok (sig = expectedSignature)

/-- HTTP status returned by `POST /api/webhooks/supabase/auth`.  The event
dispatch handlers catch their own errors; any error thrown inside the
route body (including a throwing `timingSafeEqual` or a failing body
destructuring) is caught and answered with status 200. -/
def supabaseAuthWebhookStatus (hmacHex : String → String → String)
    (secret : String) (req : WebhookRequest) : Nat :=
  if secret ≠ "" then
    match verifyWebhookSignature hmacHex req secret with
    | .error _ => 200
    | .ok false => 401
    | .ok true => 200
  else 200

/-- HTTP status returned by `POST /api/webhooks/retell`.  Reading
`event.event` on a missing body throws and is caught (200); with a body,
a missing Supabase admin client is answered with 500 before dispatch; the
dispatch handlers catch their own errors (200). -/
def retellWebhookStatus (supabaseConfigured : Bool) (req : WebhookRequest) : Nat :=
  if !req.bodyPresent then 200
  else if !supabaseConfigured then 500
  else 200

/-! ## AI prompt sidebar (`AIPromptSidebar`) -/

/-- Outcome of the credit-deduction `supabase.rpc` call:
`rpcOk success` is a non-error reply (`success` is the truthiness of
`creditData && creditData.success`), `rpcError` a reply with `creditError`
set, `thrown` an exception escaping the rpc call. -/
inductive DeductionOutcome where
  | rpcOk (success : Bool)
  | rpcError (message : String)
  | thrown (message : String)
deriving DecidableEq, Repr

/-- The component state the two handlers write. -/
structure SidebarState where
  generatedPrompt : String
  formattedPrompt : String
deriving DecidableEq, Repr

/-- A `toast(...)` invocation. -/
structure ToastMsg where
  title : String
  description : String
  destructive : Bool
deriving DecidableEq, Repr

/-- `handleGeneratePrompt`: validation, the backend fetch (modelled as its
result: `.error` for a non-ok / unsuccessful response, `.ok` carrying
`data.generatedPrompt || ""`), then the fire-and-forget credit deduction.
Returns the resulting component state and the toast shown. -/
def handleGeneratePrompt (businessType businessDescription : String)
    (userPresent : Bool) (fetchResult : Except String String)
    (deduction : DeductionOutcome) (st : SidebarState) : SidebarState × ToastMsg :=
  if jsTrim businessType = "" || jsTrim businessDescription = "" then
    (st, ⟨"Validation Error", "Please fill in both business type and description", true⟩)
  else
    match fetchResult with
    | .error e => (st, ⟨"Error", e, true⟩)
    | .ok generatedText =>
        let st1 := { st with generatedPrompt := generatedText }
        if userPresent then
          match deduction with
          | .rpcError msg =>
              let errorMsg := if msg = "" then "Unknown error" else msg
              if jsIncludes errorMsg "Insufficient credits" then
                (st1, ⟨"Warning",
                  "Prompt generated successfully, but you have insufficient credits. Please add credits to continue using this feature.",
                  true⟩)
              else
                (st1, ⟨"Warning",
                  "Prompt generated successfully, but credit deduction failed: " ++ errorMsg,
                  true⟩)
          | .rpcOk true =>
              (st1, ⟨"Success", "Prompt generated successfully (2 credits deducted)", false⟩)
          | .rpcOk false =>
              (st1, ⟨"Success", "Prompt generated successfully", false⟩)
          | .thrown msg =>
              let errorMsg := if msg = "" then "Unknown error" else msg
              (st1, ⟨"Success",
                "Prompt generated successfully, but credit deduction failed: " ++ errorMsg,
                false⟩)
        else (st1, ⟨"Success", "Prompt generated successfully", false⟩)

/-- `handleFormatPrompt`: same shape as `handleGeneratePrompt` with the
formatting endpoint and a 1-credit deduction. -/
def handleFormatPrompt (promptToFormat : String)
    (userPresent : Bool) (fetchResult : Except String String)
    (deduction : DeductionOutcome) (st : SidebarState) : SidebarState × ToastMsg :=
  if jsTrim promptToFormat = "" then
    (st, ⟨"Validation Error", "Please enter a prompt to format", true⟩)
  else
    match fetchResult with
    | .error e => (st, ⟨"Error", e, true⟩)
    | .ok formattedText =>
        let st1 := { st with formattedPrompt := formattedText }
        if userPresent then
          match deduction with
          | .rpcError msg =>
              let errorMsg := if msg = "" then "Unknown error" else msg
              if jsIncludes errorMsg "Insufficient credits" then
                (st1, ⟨"Warning",
                  "Prompt formatted successfully, but you have insufficient credits. Please add credits to continue using this feature.",
                  true⟩)
              else
                (st1, ⟨"Warning",
                  "Prompt formatted successfully, but credit deduction failed: " ++ errorMsg,
                  true⟩)
          | .rpcOk true =>
              (st1, ⟨"Success", "Prompt formatted successfully (1 credit deducted)", false⟩)
          | .rpcOk false =>
              (st1, ⟨"Success", "Prompt formatted successfully", false⟩)
          | .thrown msg =>
              let errorMsg := if msg = "" then "Unknown error" else msg
              (st1, ⟨"Success",
                "Prompt formatted successfully, but credit deduction failed: " ++ errorMsg,
                false⟩)
        else (st1, ⟨"Success", "Prompt formatted successfully", false⟩)

/-! ## Auth routes (`routes/auth.js`) -/

/-- A Supabase auth user as the routes read it. -/
structure AuthUser where
  id : String
  email : String
  email_confirmed_at : Option Int
deriving DecidableEq, Repr

/-- A `profiles` row (the columns the auth routes touch). -/
structure ProfileRow where
  user_id : String
  email : String
  full_name : String
  email_verification_code : Option String
  email_verification_sent_at : Option Int
  phone_verification_sent_at : Option Int
  updated_at : Option Int
deriving DecidableEq, Repr

/-- The Supabase-side state the auth routes read and write. -/
structure AuthDB where
  users : List AuthUser
  profiles : List ProfileRow
deriving DecidableEq, Repr

/-- A JSON response of an auth route (the fields the claims mention). -/
structure AuthResponse where
  status : Nat
  error : Option String
  retryAfter : Option Int
deriving DecidableEq, Repr

/-- The `listUsers` scan `users.find(u => u.email?.toLowerCase() === email.toLowerCase())`. -/
def findUserByEmail (users : List AuthUser) (email : String) : Option AuthUser :=
  users.find? (fun u => jsToLower u.email = jsToLower email)

/-- `maybeSingle()` on `profiles.select(...).eq("user_id", uid)`. -/
def findProfile (profiles : List ProfileRow) (uid : String) : Option ProfileRow :=
  profiles.find? (fun p => p.user_id = uid)

/-- An `update(...).eq("user_id", uid)` applied to the `profiles` table. -/
def updateProfiles (profiles : List ProfileRow) (uid : String)
    (f : ProfileRow → ProfileRow) : List ProfileRow :=
  profiles.map (fun p => if p.user_id = uid then f p else p)

/-- The request body of `POST /api/auth/signup`. -/
structure SignupRequest where
  email : Option String
  password : Option String
  fullName : Option String
  timezone : Option String
  phoneNumber : Option String
deriving DecidableEq, Repr

/-- Outcome of the validation prefix of the signup route: an early JSON
response, or the values with which `auth.admin.createUser` is invoked. -/
inductive SignupValidation where
  | reject (status : Nat) (error : String)
  | createUser (email password fullName timezone : String) (phoneNumber : Option String)
deriving DecidableEq, Repr

/-- The validation prefix of `POST /api/auth/signup`: required fields,
email format, password length, configured Supabase admin; afterwards the
route proceeds to create the user. -/
def signupValidate (req : SignupRequest) (adminConfigured : Bool) : SignupValidation :=
  if jsFalsy req.email || jsFalsy req.password || jsFalsy req.fullName || jsFalsy req.timezone then
    .reject 400 "Missing required fields: email, password, fullName, and timezone are required"
  else
    let email := req.email.getD ""
    let password := req.password.getD ""
    if !emailRegexTest email then .reject 400 "Invalid email format"
    else if password.length < 6 then .reject 400 "Password must be at least 6 characters"
    else if !adminConfigured then .reject 500 "Authentication service is not configured"
    else .createUser email password (req.fullName.getD "") (req.timezone.getD "") req.phoneNumber

/-- `POST /api/auth/verify-email`.  `supabaseVerifyOtp` is the external
`auth.verifyOtp` fallback used when no OTP is stored in the database
(`true` = Supabase accepted the code); its failure is answered with a 400
response.  Database reads and writes are modelled on their success path.
Returns the JSON response and the updated database. -/
def verifyEmail (db : AuthDB) (adminConfigured : Bool)
    (supabaseVerifyOtp : String → String → Bool)
    (email token : Option String) (nowMs : Int) : AuthResponse × AuthDB :=
  if jsFalsy email || jsFalsy token then
    (⟨400, some "Email and verification token are required", none⟩, db)
  else
    let e := email.getD ""
    let tok := token.getD ""
    if !emailRegexTest e then (⟨400, some "Invalid email format", none⟩, db)
    else if !sixDigitTest tok then
      (⟨400, some "Verification code must be 6 digits", none⟩, db)
    else if !adminConfigured then
      (⟨500, some "Authentication service is not configured", none⟩, db)
    else
      match findUserByEmail db.users e with
      | none => (⟨404, some "No account found with this email address.", none⟩, db)
      | some user =>
          let profile := findProfile db.profiles user.id
          let storedOtp := profile.bind ProfileRow.email_verification_code
          let otpSentAt := profile.bind ProfileRow.email_verification_sent_at
          if jsFalsy storedOtp then
            -- fallback to Supabase OTP verification
            if supabaseVerifyOtp e tok then
              (⟨200, none, none⟩,
               { db with profiles := (updateProfiles db.profiles user.id
                  (fun p => { p with updated_at := some nowMs })) })
            else
              (⟨400, some "Invalid or expired verification code. Please request a new one.", none⟩, db)
          else
            let stored := storedOtp.getD ""
            if stored ≠ tok then
              (⟨400, some "Invalid verification code. Please check and try again.", none⟩, db)
            else
              match otpSentAt with
              | some sentTime =>
                  if sentTime < nowMs - 10 * 60 * 1000 then
                    (⟨400, some "Verification code has expired. Please request a new one.", none⟩, db)
                  else
                    (⟨200, none, none⟩,
                     { db with profiles := (updateProfiles db.profiles user.id
                        (fun p => { p with email_verification_code := none,
                                           updated_at := some nowMs })) })
              | none =>
                  (⟨200, none, none⟩,
                   { db with profiles := (updateProfiles db.profiles user.id
                      (fun p => { p with email_verification_code := none,
                                         updated_at := some nowMs })) })

/-- `POST /api/auth/resend-verification`.  `otpCode` is the freshly
generated random six-digit code; `emailSent` is the outcome of the SMTP
send together with its Supabase fallback.  Database reads and writes are
modelled on their success path.  Returns the JSON response and the updated
database. -/
def resendVerification (db : AuthDB) (adminConfigured : Bool)
    (otpCode : String) (emailSent : Bool)
    (email : Option String) (nowMs : Int) : AuthResponse × AuthDB :=
  if jsFalsy email then (⟨400, some "Email is required", none⟩, db)
  else
    let e := email.getD ""
    if !emailRegexTest e then (⟨400, some "Invalid email format", none⟩, db)
    else if !adminConfigured then
      (⟨500, some "Authentication service is not configured", none⟩, db)
    else
      -- find the user via the profiles table first, then fall back to listUsers
      let profileByEmail := db.profiles.find? (fun p => p.email = jsToLower e)
      let userByProfile :=
        match profileByEmail with
        | some p => db.users.find? (fun u => u.id = p.user_id)
        | none => none
      let user :=
        match userByProfile with
        | some u => some u
        | none => findUserByEmail db.users e
      match user with
      | none =>
          (⟨404, some "No account found with this email address. Please sign up first.", none⟩, db)
      | some user =>
          if user.email_confirmed_at ≠ none then
            (⟨400, some "This email is already verified. You can sign in directly.", none⟩, db)
          else
            let profile := findProfile db.profiles user.id
            let lastResendTime :=
              match profile.bind ProfileRow.phone_verification_sent_at with
              | some v => some v
              | none => profile.bind ProfileRow.updated_at
            let rateLimited :=
              match lastResendTime with
              | some lr => decide (nowMs - 60000 < lr)
              | none => false
            if rateLimited then
              let lr := lastResendTime.getD 0
              let secondsLeft := jsCeilDiv1000 (lr + 60000 - nowMs)
              (⟨429,
                some ("Please wait " ++ toString secondsLeft ++
                  " seconds before requesting another verification code."),
                some secondsLeft⟩, db)
            else
              let db1 := { db with profiles := (updateProfiles db.profiles user.id
                (fun p => { p with email_verification_code := some otpCode,
                                   email_verification_sent_at := some nowMs,
                                   updated_at := some nowMs })) }
              if emailSent then
                let db2 := { db1 with profiles := (updateProfiles db1.profiles user.id
                  (fun p => { p with phone_verification_sent_at := some nowMs,
                                     updated_at := some nowMs })) }
                (⟨200, none, none⟩, db2)
              else
                (⟨500, some "Failed to send verification email.", none⟩, db1)

/-! ## Initial profile rows of the three creation paths -/

/-- The union of the columns written by the three profile-creation paths. -/
structure ProfileInit where
  user_id : String
  email : String
  full_name : String
  timezone : String
  retell_api_key : Option String
  total_minutes_used : Int
  Total_credit : Int
  Remaning_credits : Int
  is_deactivated : Bool
  payment_status : String
  trial_credits_expires_at : Int
  tour_completed : Option Bool
  phone_number : Option String
  updated_at : Option Int
  last_activity_at : Option Int
deriving DecidableEq, Repr

/-- The `profileData` upserted by `POST /api/auth/signup` after user
creation (100 free trial credits). -/
def signupProfileData (userId userEmail fullName timezone : String)
    (retellApiKeyEnv : Option String) (phoneNumber : Option String)
    (trialExpirationMs nowMs : Int) : ProfileInit :=
  { user_id := userId, email := userEmail, full_name := fullName,
    timezone := timezone, retell_api_key := retellApiKeyEnv,
    total_minutes_used := 0, Total_credit := 0,
    Remaning_credits := 100,
    is_deactivated := false, payment_status := "unpaid",
    trial_credits_expires_at := trialExpirationMs,
    tour_completed := none,
    phone_number := if jsFalsy phoneNumber then none else phoneNumber,
    updated_at := some nowMs, last_activity_at := some nowMs }

/-- The row inserted by the `handle_new_user` Postgres trigger
(migration 017: initial credits 0, given after tour completion). -/
def handleNewUserProfileData (newId newEmail : String)
    (metaFullName : Option String) (nowMs : Int) : ProfileInit :=
  { user_id := newId, email := newEmail, full_name := metaFullName.getD "",
    timezone := "UTC", retell_api_key := none,
    total_minutes_used := 0, Total_credit := 0,
    Remaning_credits := 0,
    is_deactivated := false, payment_status := "unpaid",
    trial_credits_expires_at := nowMs + 7 * 24 * 60 * 60 * 1000,
    tour_completed := some false, phone_number := none,
    updated_at := some nowMs, last_activity_at := some nowMs }

/-- The fallback `profileData` inserted by `handleUserCreated` in the
Supabase auth webhook when no profile exists yet (credits 0, given after
tour completion). -/
def webhookProfileData (userId userEmail : String) (metaFullName : Option String)
    (retellApiKeyEnv : Option String) (trialExpirationMs : Int) : ProfileInit :=
  { user_id := userId, email := userEmail, full_name := metaFullName.getD "",
    timezone := "UTC", retell_api_key := retellApiKeyEnv,
    total_minutes_used := 0, Total_credit := 0,
    Remaning_credits := 0,
    is_deactivated := false, payment_status := "unpaid",
    trial_credits_expires_at := trialExpirationMs,
    tour_completed := none, phone_number := none,
    updated_at := none, last_activity_at := none }

/-! ## Theorems -/

/-- Helper: after the write phase performs a grant, the read phase of a
later run finds the freshly written ledger row. -/
theorem tourCheckPhase_after_grant (uid : String) (n : Int) (db : TourDB) :
    tourCheckPhase uid (tourGrantPhase uid n false db) = true := by
  simp [tourCheckPhase, tourGrantPhase, addCredits, List.filter_append,
    List.any_append, breakdownMatches]

/-- C10: the tour step index stays in range.  There are 31 steps;
`handleNext` and `handlePrevious` keep `currentStep` inside
`[0, tourSteps.length)`; `handlePrevious` at step 0 leaves the step
unchanged, and `handleNext` at the last step keeps the index and invokes
completion instead. -/
theorem tour_step_index_in_range (s : Nat) (h : s < tourSteps.length) :
    tourSteps.length = 31
    ∧ (handleNext s).1 < tourSteps.length
    ∧ handlePrevious s < tourSteps.length
    ∧ handlePrevious 0 = 0
    ∧ (s = tourSteps.length - 1 → (handleNext s).1 = s ∧ (handleNext s).2 = true) := by
  have hl : tourSteps.length = 31 := rfl
  rw [hl] at h
  refine ⟨hl, ?_, ?_, rfl, ?_⟩
  · simp only [handleNext, hl]
    split <;> simp <;> omega
  · simp only [handlePrevious, hl]
    split <;> omega
  · intro hs
    rw [hl] at hs
    subst hs
    simp [handleNext, hl]

/-- Witness for C10 at the last step. -/
theorem tour_step_index_in_range_witness :
    30 < tourSteps.length
    ∧ (tourSteps.length = 31
      ∧ (handleNext 30).1 < tourSteps.length
      ∧ handlePrevious 30 < tourSteps.length
      ∧ handlePrevious 0 = 0
      ∧ (30 = tourSteps.length - 1 → (handleNext 30).1 = 30 ∧ (handleNext 30).2 = true)) :=
  ⟨by decide, tour_step_index_in_range 30 (by decide)⟩

/-- C1: `handleSkip` marks the tour completed and never touches the ledger
or the balance; `markTourCompleted` marks the tour completed and deposits
the 100-credit reward exactly when the duplicate check found no matching
`usage_type = "other"` row — in particular only if no prior row of that
user has a `cost_breakdown` description equal to the reward string. -/
theorem tour_skip_and_complete_reward_guard (uid : String) (nowMs : Int) (db : TourDB) :
    (handleSkip db).tour_completed = true
    ∧ (handleSkip db).credit_usage_logs = db.credit_usage_logs
    ∧ (handleSkip db).Remaning_credits = db.Remaning_credits
    ∧ (markTourCompleted uid nowMs db).2.tour_completed = true
    ∧ ((markTourCompleted uid nowMs db).1 = true ↔ tourCheckPhase uid db = false)
    ∧ ((markTourCompleted uid nowMs db).1 = true →
        (markTourCompleted uid nowMs db).2.Remaning_credits = db.Remaning_credits + 100
        ∧ ∀ log ∈ db.credit_usage_logs, log.user_id = uid → log.usage_type = "other" →
            log.cost_breakdown.bind CostBreakdown.description ≠ some tourRewardDescription) := by
  refine ⟨rfl, rfl, rfl, ?_, ?_, ?_⟩
  · simp only [markTourCompleted, tourGrantPhase]
    split <;> simp [addCredits]
  · simp [markTourCompleted]
  · intro hgrant
    have hchk : tourCheckPhase uid db = false := by
      simpa [markTourCompleted] using hgrant
    constructor
    · simp [markTourCompleted, tourGrantPhase, hchk, addCredits]
    · intro log hmem huid htype hdesc
      have hin : log ∈ db.credit_usage_logs.filter
          (fun l => l.user_id = uid && l.usage_type = "other") := by
        simp [List.mem_filter, hmem, huid, htype]
      have hmatch : breakdownMatches log = true := by
        cases hcb : log.cost_breakdown with
        | none => simp [hcb] at hdesc
        | some b =>
            have hb : b.description = some tourRewardDescription := by
              simpa [hcb] using hdesc
            simp [breakdownMatches, hcb, hb]
      have := List.any_eq_false.mp (by simpa [tourCheckPhase] using hchk) log hin
      simp [hmatch] at this

/-- Witness for C1 on a concrete database. -/
theorem tour_skip_and_complete_reward_guard_witness :
    (markTourCompleted "u" 0 ⟨false, 0, []⟩).2.tour_completed = true :=
  (tour_skip_and_complete_reward_guard "u" 0 ⟨false, 0, []⟩).2.2.2.1

/-- C2 counterexample: from a fresh database, the interleaving in which
both completion requests run their duplicate check before either performs
its grant deposits the reward twice (200 credits, two matching ledger
rows), so the reward is not granted at most once under concurrency. -/
theorem tour_concurrent_double_grant_cex :
    (tourGrantPhase "u" 1 (tourCheckPhase "u" (⟨false, 0, []⟩ : TourDB))
        (tourGrantPhase "u" 0 (tourCheckPhase "u" (⟨false, 0, []⟩ : TourDB))
          (⟨false, 0, []⟩ : TourDB))).Remaning_credits = 200
    ∧ ((tourGrantPhase "u" 1 (tourCheckPhase "u" (⟨false, 0, []⟩ : TourDB))
        (tourGrantPhase "u" 0 (tourCheckPhase "u" (⟨false, 0, []⟩ : TourDB))
          (⟨false, 0, []⟩ : TourDB))).credit_usage_logs.filter breakdownMatches).length = 2 := by
  decide

/-- C2 amended: when the two completion requests run sequentially (each
read phase sees the other, completed, write phase), the reward is granted
at most once; the fully concurrent interleaving is the one that double
grants. -/
theorem tour_sequential_reward_at_most_once (uid : String) (n1 n2 : Int) (db : TourDB) :
    ((markTourCompleted uid n1 db).1 &&
      (markTourCompleted uid n2 (markTourCompleted uid n1 db).2).1) = false := by
  cases hchk : tourCheckPhase uid db with
  | true => simp [markTourCompleted, hchk]
  | false =>
      have h2 := tourCheckPhase_after_grant uid n1 db
      simp [markTourCompleted, hchk, h2]

/-- C3 counterexample: with a webhook secret configured and no signature
header, `POST /api/webhooks/supabase/auth` answers 401; with no Supabase
admin client configured, `POST /api/webhooks/retell` answers 500.  Neither
endpoint returns 200 for every request and configuration. -/
theorem webhook_not_always_200_cex :
    supabaseAuthWebhookStatus (fun _ _ => "") "secret" ⟨none, "", true⟩ = 401
    ∧ retellWebhookStatus false ⟨none, "", true⟩ = 500 := by
  constructor <;> rfl

/-- C3 amended: the Supabase auth webhook returns 200 for every request —
including processing failures — except that it returns 401 exactly when a
secret is configured and signature verification returns false; the Retell
webhook returns 200 except that it returns 500 when a body is readable but
no Supabase admin client is configured. -/
theorem webhook_status_characterization (hmacHex : String → String → String)
    (secret : String) (req : WebhookRequest) (supabaseConfigured : Bool) :
    (supabaseAuthWebhookStatus hmacHex secret req = 200 ∨
      supabaseAuthWebhookStatus hmacHex secret req = 401)
    ∧ (supabaseAuthWebhookStatus hmacHex secret req = 401 ↔
        secret ≠ "" ∧ verifyWebhookSignature hmacHex req secret = .ok false)
    ∧ retellWebhookStatus supabaseConfigured req =
        (if req.bodyPresent && !supabaseConfigured then 500 else 200) := by
  refine ⟨?_, ?_, ?_⟩
  · simp only [supabaseAuthWebhookStatus]
    split
    · split <;> simp
    · simp
  · simp only [supabaseAuthWebhookStatus]
    split
    · rename_i hne
      split <;> rename_i heq <;> simp [heq, hne]
    · rename_i hne
      simp only [ne_eq, not_not] at hne
      simp [hne]
  · simp only [retellWebhookStatus]
    cases req.bodyPresent <;> cases supabaseConfigured <;> simp

/-- C7 counterexample: the body `{email: "a@b.com", password: "short"}`
carries no `fullName` and no `timezone`, so the signup route rejects it
with the missing-required-fields message, not with the password-length
message. -/
theorem signup_short_password_missing_fields_cex :
    signupValidate ⟨some "a@b.com", some "short", none, none, none⟩ true =
      .reject 400 "Missing required fields: email, password, fullName, and timezone are required"
    ∧ signupValidate ⟨some "a@b.com", some "short", none, none, none⟩ true ≠
      .reject 400 "Password must be at least 6 characters" := by
  constructor
  · rfl
  · decide

/-- C7 amended: a signup request with email `a@b.com`, password `short`
and any non-empty `fullName` and `timezone` is rejected with status 400
and the message `Password must be at least 6 characters`. -/
theorem signup_short_password_400 (fullName timezone : String)
    (hf : fullName ≠ "") (ht : timezone ≠ "") (adminConfigured : Bool) :
    signupValidate ⟨some "a@b.com", some "short", some fullName, some timezone, none⟩
        adminConfigured =
      .reject 400 "Password must be at least 6 characters" := by
  have hmail : emailRegexTest "a@b.com" = true := by decide
  have hlen : "short".length < 6 := by decide
  simp [signupValidate, jsFalsy, hf, ht, hmail, hlen]

/-- Witness for C7 (amended) at a concrete full name and timezone. -/
theorem signup_short_password_400_witness :
    "John Doe" ≠ "" ∧ "UTC" ≠ "" ∧
      signupValidate ⟨some "a@b.com", some "short", some "John Doe", some "UTC", none⟩ true =
        .reject 400 "Password must be at least 6 characters" :=
  ⟨by decide, by decide,
    signup_short_password_400 "John Doe" "UTC" (by decide) (by decide) true⟩

/-- C9 counterexample: the signup upsert initialises `Remaning_credits`
to 100 while the webhook fallback insert initialises it to 0 — the three
profile-creation paths do not agree. -/
theorem profile_init_credits_disagree_cex :
    (signupProfileData "u" "a@b.com" "n" "UTC" none none 0 0).Remaning_credits = 100
    ∧ (handleNewUserProfileData "u" "a@b.com" none 0).Remaning_credits = 0
    ∧ (webhookProfileData "u" "a@b.com" none none 0).Remaning_credits = 0
    ∧ (signupProfileData "u" "a@b.com" "n" "UTC" none none 0 0).Remaning_credits ≠
      (webhookProfileData "u" "a@b.com" none none 0).Remaning_credits := by
  refine ⟨rfl, rfl, rfl, ?_⟩
  decide

/-- C9 amended: the `handle_new_user` trigger and the webhook fallback
initialise a fresh profile with 0 credits (granted later by the tour
reward), while the signup upsert initialises it with 100 credits. -/
theorem profile_init_credits_values (userId userEmail fullName timezone : String)
    (retellKey phone metaName : Option String) (trialMs nowMs : Int) :
    (signupProfileData userId userEmail fullName timezone retellKey phone
        trialMs nowMs).Remaning_credits = 100
    ∧ (handleNewUserProfileData userId userEmail metaName nowMs).Remaning_credits = 0
    ∧ (webhookProfileData userId userEmail metaName retellKey trialMs).Remaning_credits = 0 :=
  ⟨rfl, rfl, rfl⟩

/-- Helper: a pattern contained in `s` is contained in `s ++ t`. -/
theorem jsIncludes_append_left (s t pat : String) (h : jsIncludes s pat = true) :
    jsIncludes (s ++ t) pat = true := by
  simp only [jsIncludes, decide_eq_true_eq] at h ⊢
  have htl : (s ++ t).toList = s.toList ++ t.toList := by
    cases s; cases t; rfl
  rw [htl]
  exact h.trans (List.prefix_append s.toList t.toList).isInfix

/-- C4: once the backend fetch has produced a generated (or formatted)
prompt, the component stores it no matter how the fire-and-forget credit
deduction turns out; a deduction error only raises a `Warning` toast, and
a deduction exception raises a toast mentioning the failed deduction —
neither path clears the stored result. -/
theorem sidebar_result_retained_despite_deduction_failure
    (businessType businessDescription promptToFormat : String)
    (userPresent : Bool) (generatedText formattedText : String)
    (deduction : DeductionOutcome) (st st2 : SidebarState)
    (hb : jsTrim businessType ≠ "") (hd : jsTrim businessDescription ≠ "")
    (hp : jsTrim promptToFormat ≠ "") :
    (handleGeneratePrompt businessType businessDescription userPresent
        (.ok generatedText) deduction st).1.generatedPrompt = generatedText
    ∧ (handleFormatPrompt promptToFormat userPresent
        (.ok formattedText) deduction st2).1.formattedPrompt = formattedText
    ∧ (∀ msg, (handleGeneratePrompt businessType businessDescription true
        (.ok generatedText) (.rpcError msg) st).2.title = "Warning")
    ∧ (∀ msg, (handleFormatPrompt promptToFormat true
        (.ok formattedText) (.rpcError msg) st2).2.title = "Warning")
    ∧ (∀ msg, jsIncludes (handleGeneratePrompt businessType businessDescription true
        (.ok generatedText) (.thrown msg) st).2.description "credit deduction failed" = true) := by
  refine ⟨?_, ?_, ?_, ?_, ?_⟩
  · cases userPresent with
    | false => simp [handleGeneratePrompt, hb, hd]
    | true =>
        rcases deduction with b | m | m
        · cases b <;> simp [handleGeneratePrompt, hb, hd]
        · simp only [handleGeneratePrompt]
          simp [hb, hd]
          split_ifs <;> rfl
        · simp [handleGeneratePrompt, hb, hd]
  · cases userPresent with
    | false => simp [handleFormatPrompt, hp]
    | true =>
        rcases deduction with b | m | m
        · cases b <;> simp [handleFormatPrompt, hp]
        · simp only [handleFormatPrompt]
          simp [hp]
          split_ifs <;> rfl
        · simp [handleFormatPrompt, hp]
  · intro msg
    simp only [handleGeneratePrompt]
    simp [hb, hd]
    split_ifs <;> rfl
  · intro msg
    simp only [handleFormatPrompt]
    simp [hp]
    split_ifs <;> rfl
  · intro msg
    have hdesc : (handleGeneratePrompt businessType businessDescription true
        (.ok generatedText) (.thrown msg) st).2.description =
        "Prompt generated successfully, but credit deduction failed: " ++
          (if msg = "" then "Unknown error" else msg) := by
      simp [handleGeneratePrompt, hb, hd]
    rw [hdesc]
    exact jsIncludes_append_left _ _ _ (by decide)

/-- Witness for C4 on concrete inputs. -/
theorem sidebar_result_retained_witness :
    jsTrim "restaurant" ≠ "" ∧ jsTrim "We sell pizza" ≠ "" ∧ jsTrim "Be polite" ≠ "" ∧
      ((handleGeneratePrompt "restaurant" "We sell pizza" true
          (.ok "G") (.rpcError "Insufficient credits") ⟨"", ""⟩).1.generatedPrompt = "G"
      ∧ (handleFormatPrompt "Be polite" true
          (.ok "F") (.rpcError "Insufficient credits") ⟨"", ""⟩).1.formattedPrompt = "F"
      ∧ (∀ msg, (handleGeneratePrompt "restaurant" "We sell pizza" true
          (.ok "G") (.rpcError msg) ⟨"", ""⟩).2.title = "Warning")
      ∧ (∀ msg, (handleFormatPrompt "Be polite" true
          (.ok "F") (.rpcError msg) ⟨"", ""⟩).2.title = "Warning")
      ∧ (∀ msg, jsIncludes (handleGeneratePrompt "restaurant" "We sell pizza" true
          (.ok "G") (.thrown msg) ⟨"", ""⟩).2.description "credit deduction failed" = true)) :=
  ⟨by decide, by decide, by decide,
    sidebar_result_retained_despite_deduction_failure "restaurant" "We sell pizza" "Be polite"
      true "G" "F" (.rpcError "Insufficient credits") ⟨"", ""⟩ ⟨"", ""⟩
      (by decide) (by decide) (by decide)⟩

/-- Helper: `identifySpeaker` keeps the segment text. -/
theorem identifySpeaker_text (t : String) : (identifySpeaker t).text = t := rfl

/-- Helper: the context adjustment keeps the segment text. -/
theorem contextAdjust_text (p : String) (s : TranscriptSegment) :
    (contextAdjust p s).text = s.text := by
  simp only [contextAdjust]
  split
  · split <;> rfl
  · split <;> rfl

/-- Helper: `identifyRole` only ever answers `agent` or `user`. -/
theorem identifyRole_agent_or_user (t : String) :
    identifyRole t = Role.agent ∨ identifyRole t = Role.user := by
  simp only [identifyRole]
  split_ifs <;> simp

/-- Helper: the context adjustment preserves the agent-or-user dichotomy. -/
theorem contextAdjust_role (p : String) (s : TranscriptSegment)
    (h : s.role = Role.agent ∨ s.role = Role.user) :
    (contextAdjust p s).role = Role.agent ∨ (contextAdjust p s).role = Role.user := by
  simp only [contextAdjust]
  split
  · split
    · exact Or.inl rfl
    · exact Or.inr rfl
  · split
    · exact Or.inl rfl
    · exact h

/-- Helper: `processSegments` reproduces the segment texts. -/
theorem processSegments_map_text (prev : Option String) (l : List String) :
    (processSegments prev l).map TranscriptSegment.text = l := by
  induction l generalizing prev with
  | nil => cases prev <;> rfl
  | cons x xs ih =>
      cases prev with
      | none =>
          simp only [processSegments, List.map_cons, identifySpeaker_text, ih]
      | some p =>
          simp only [processSegments, List.map_cons, contextAdjust_text,
            identifySpeaker_text, ih]

/-- Helper: every segment produced by `processSegments` is labelled
`agent` or `user`. -/
theorem processSegments_role (prev : Option String) (l : List String) :
    ∀ seg ∈ processSegments prev l, seg.role = Role.agent ∨ seg.role = Role.user := by
  induction l generalizing prev with
  | nil => intro seg h; cases prev <;> simp [processSegments] at h
  | cons x xs ih =>
      intro seg h
      cases prev with
      | none =>
          simp only [processSegments, List.mem_cons] at h
          rcases h with h | h
          · subst h; exact identifyRole_agent_or_user x
          · exact ih (some x) seg h
      | some p =>
          simp only [processSegments, List.mem_cons] at h
          rcases h with h | h
          · subst h
            exact contextAdjust_role p (identifySpeaker x) (identifyRole_agent_or_user x)
          · exact ih (some x) seg h

/-- Helper: every element surviving `trimFilter` is non-empty. -/
theorem trimFilter_pos (l : List String) : ∀ x ∈ trimFilter l, 0 < x.length := by
  intro x hx
  exact of_decide_eq_true (List.mem_filter.mp hx).2

/-- Helper: every segment of the three-stage segmentation is non-empty. -/
theorem plainSegments_pos (t : String) : ∀ x ∈ plainSegments t, 0 < x.length := by
  intro x hx
  simp only [plainSegments] at hx
  split at hx
  · split at hx
    · exact trimFilter_pos _ x hx
    · split at hx
      · exact trimFilter_pos _ x hx
      · exact trimFilter_pos _ x hx
  · split at hx
    · exact trimFilter_pos _ x hx
    · exact trimFilter_pos _ x hx

/-- C8: on a plain transcript (no structured metadata), `parseTranscript`
reproduces exactly the segments of the three-stage segmentation (blank
lines, then single newlines when at most one segment resulted, then
sentence boundaries when a single segment longer than 200 characters
remains); every resulting segment is non-empty and carries role `agent` or
`user`, assigned by `identifySpeaker` and the previous-segment context
rule. -/
theorem parse_transcript_segmentation (t : String) :
    (parseTranscriptPlain t).map TranscriptSegment.text = plainSegments t
    ∧ ∀ seg ∈ parseTranscriptPlain t,
        0 < seg.text.length ∧ (seg.role = Role.agent ∨ seg.role = Role.user) := by
  constructor
  · simp only [parseTranscriptPlain]
    split
    · rename_i ht
      subst ht
      decide
    · exact processSegments_map_text none (plainSegments t)
  · intro seg hseg
    simp only [parseTranscriptPlain] at hseg
    split at hseg
    · simp at hseg
    · have htext : seg.text ∈ plainSegments t := by
        have hmem := List.mem_map_of_mem TranscriptSegment.text hseg
        rwa [processSegments_map_text] at hmem
      exact ⟨plainSegments_pos t _ htext, processSegments_role none _ seg hseg⟩

/-- Witness for C8 on a concrete two-line transcript. -/
theorem parse_transcript_segmentation_witness :
    (parseTranscriptPlain "Hello! How can I help you today?\nYes I need help please.").map
        TranscriptSegment.text =
      plainSegments "Hello! How can I help you today?\nYes I need help please."
    ∧ ∀ seg ∈ parseTranscriptPlain "Hello! How can I help you today?\nYes I need help please.",
        0 < seg.text.length ∧ (seg.role = Role.agent ∨ seg.role = Role.user) :=
  parse_transcript_segmentation "Hello! How can I help you today?\nYes I need help please."

/-- Helper: updating the rows of one user commutes with looking that user
up, provided the update keeps the `user_id` column. -/
theorem findProfile_updateProfiles (l : List ProfileRow) (uid : String)
    (f : ProfileRow → ProfileRow) (hf : ∀ q, (f q).user_id = q.user_id) :
    findProfile (updateProfiles l uid f) uid = (findProfile l uid).map f := by
  induction l with
  | nil => rfl
  | cons q t ih =>
      by_cases hq : q.user_id = uid
      · simp [updateProfiles, findProfile, List.find?_cons, hq, hf]
      · simp only [updateProfiles, findProfile, List.map_cons] at ih ⊢
        rw [if_neg hq]
        rw [List.find?_cons, List.find?_cons]
        simp only [hq]
        simpa using ih

/-- Helper: updating the rows of one user commutes with looking a row up
by email, provided the update keeps the `email` column. -/
theorem findByEmail_updateProfiles (l : List ProfileRow) (uid em : String)
    (f : ProfileRow → ProfileRow) (hf : ∀ q, (f q).email = q.email) :
    (updateProfiles l uid f).find? (fun q => q.email = em) =
      (l.find? (fun q => q.email = em)).map
        (fun q => if q.user_id = uid then f q else q) := by
  induction l with
  | nil => rfl
  | cons q t ih =>
      by_cases hq : q.email = em
      · by_cases hu : q.user_id = uid
        · simp [updateProfiles, List.find?_cons, hq, hu, hf]
        · simp [updateProfiles, List.find?_cons, hq, hu, hf]
      · by_cases hu : q.user_id = uid
        · simp only [updateProfiles, List.map_cons] at ih ⊢
          rw [if_pos hu]
          rw [List.find?_cons, List.find?_cons]
          simp only [hf, hq]
          simpa using ih
        · simp only [updateProfiles, List.map_cons] at ih ⊢
          rw [if_neg hu]
          rw [List.find?_cons, List.find?_cons]
          simp only [hq]
          simpa using ih

/-- C5: for a user with a stored email-verification OTP, the verify-email
route accepts the submitted token exactly when it equals the stored code
and the code was issued within the last 10 minutes; on acceptance the
stored code is cleared, so resubmitting the same token (now handled by
the external Supabase fallback, which rejects it) fails with a 400. -/
theorem verify_email_otp_fresh_and_single_use
    (db : AuthDB) (oracle : String → String → Bool)
    (e tok c : String) (u : AuthUser) (p : ProfileRow) (sentTime nowMs nowMs2 : Int)
    (he : emailRegexTest e = true) (htok : sixDigitTest tok = true)
    (hfind : findUserByEmail db.users e = some u)
    (hprof : findProfile db.profiles u.id = some p)
    (hcode : p.email_verification_code = some c) (hcne : c ≠ "")
    (hsent : p.email_verification_sent_at = some sentTime)
    (horacle : oracle e tok = false) :
    ((verifyEmail db true oracle (some e) (some tok) nowMs).1.status = 200 ↔
      (c = tok ∧ nowMs - 10 * 60 * 1000 ≤ sentTime))
    ∧ (c = tok → nowMs - 10 * 60 * 1000 ≤ sentTime →
        findProfile (verifyEmail db true oracle (some e) (some tok) nowMs).2.profiles u.id =
          some { p with email_verification_code := none, updated_at := some nowMs }
        ∧ (verifyEmail (verifyEmail db true oracle (some e) (some tok) nowMs).2 true oracle
            (some e) (some tok) nowMs2).1.status = 400) := by
  have he0 : e ≠ "" := by
    intro h; rw [h] at he; exact absurd he (by decide)
  have ht0 : tok ≠ "" := by
    intro h; rw [h] at htok; exact absurd htok (by decide)
  have hstat : (verifyEmail db true oracle (some e) (some tok) nowMs).1.status =
      (if c = tok then (if sentTime < nowMs - 10 * 60 * 1000 then 400 else 200) else 400) := by
    simp only [verifyEmail]
    simp [jsFalsy, he0, ht0, he, htok, hfind, hprof, hcode, hcne, hsent]
    split_ifs <;> simp_all
  constructor
  · rw [hstat]
    split_ifs with h1 h2
    · constructor
      · intro h; simp at h
      · rintro ⟨-, hle⟩; omega
    · simp only [h1, true_and]
      constructor
      · intro _; omega
      · intro _; trivial
    · constructor
      · intro h; simp at h
      · rintro ⟨hc, -⟩; exact absurd hc h1
  · intro htokc hfresh
    have hdb : (verifyEmail db true oracle (some e) (some tok) nowMs).2 =
        { db with profiles := (updateProfiles db.profiles u.id
          (fun q => { q with email_verification_code := none, updated_at := some nowMs })) } := by
      simp only [verifyEmail]
      simp [jsFalsy, he0, ht0, he, htok, hfind, hprof, hcode, hcne, hsent, htokc]
      split_ifs with hx
      · omega
      · rfl
    have hprof2 : findProfile (updateProfiles db.profiles u.id
        (fun q => { q with email_verification_code := none, updated_at := some nowMs })) u.id =
        some { p with email_verification_code := none, updated_at := some nowMs } := by
      rw [findProfile_updateProfiles db.profiles u.id
        (fun q => { q with email_verification_code := none, updated_at := some nowMs })
        (fun q => rfl), hprof]
      rfl
    constructor
    · rw [hdb]; exact hprof2
    · rw [hdb]
      simp only [verifyEmail]
      simp [jsFalsy, he0, ht0, he, htok, hfind, hprof2, horacle]

/-- Witness for C5 on a one-user database: the code is accepted fresh,
cleared, and its resubmission rejected. -/
theorem verify_email_otp_fresh_and_single_use_witness :
    emailRegexTest "a@b.com" = true ∧ sixDigitTest "123456" = true
    ∧ (((verifyEmail ⟨[⟨"u1", "a@b.com", none⟩],
          [⟨"u1", "a@b.com", "Jane", some "123456", some 1000, none, none⟩]⟩ true
          (fun _ _ => false) (some "a@b.com") (some "123456") 2000).1.status = 200 ↔
        ("123456" = "123456" ∧ (2000 : Int) - 10 * 60 * 1000 ≤ 1000))
      ∧ ("123456" = "123456" → (2000 : Int) - 10 * 60 * 1000 ≤ 1000 →
          findProfile (verifyEmail ⟨[⟨"u1", "a@b.com", none⟩],
              [⟨"u1", "a@b.com", "Jane", some "123456", some 1000, none, none⟩]⟩ true
              (fun _ _ => false) (some "a@b.com") (some "123456") 2000).2.profiles "u1" =
            some { (⟨"u1", "a@b.com", "Jane", some "123456", some 1000, none, none⟩ : ProfileRow) with
              email_verification_code := none, updated_at := some 2000 }
          ∧ (verifyEmail (verifyEmail ⟨[⟨"u1", "a@b.com", none⟩],
              [⟨"u1", "a@b.com", "Jane", some "123456", some 1000, none, none⟩]⟩ true
              (fun _ _ => false) (some "a@b.com") (some "123456") 2000).2 true
              (fun _ _ => false) (some "a@b.com") (some "123456") 3000).1.status = 400)) :=
  ⟨by decide, by decide,
    verify_email_otp_fresh_and_single_use
      ⟨[⟨"u1", "a@b.com", none⟩], [⟨"u1", "a@b.com", "Jane", some "123456", some 1000, none, none⟩]⟩
      (fun _ _ => false) "a@b.com" "123456" "123456"
      ⟨"u1", "a@b.com", none⟩ ⟨"u1", "a@b.com", "Jane", some "123456", some 1000, none, none⟩
      1000 2000 3000 (by decide) (by decide) (by decide) (by decide) rfl (by decide) rfl rfl⟩

/-- C6: for an existing unverified user, a first resend-verification
request that succeeds at time `t0` stamps the cooldown field, and a second
request within 60 seconds answers 429 with `retryAfter` equal to the
number of seconds remaining in the cooldown (the ceiling of the remaining
milliseconds over 1000). -/
theorem resend_verification_cooldown_429
    (db : AuthDB) (otp1 otp2 e : String) (u : AuthUser) (p : ProfileRow) (t0 t1 : Int)
    (he : emailRegexTest e = true)
    (hpe : db.profiles.find? (fun q => q.email = jsToLower e) = some p)
    (hu : db.users.find? (fun v => v.id = p.user_id) = some u)
    (hprof : findProfile db.profiles u.id = some p)
    (hconf : u.email_confirmed_at = none)
    (hp1 : p.phone_verification_sent_at = none)
    (hp2 : p.updated_at = none)
    (horder : t0 ≤ t1) (hwin : t1 < t0 + 60000) :
    (resendVerification db true otp1 true (some e) t0).1.status = 200
    ∧ (resendVerification (resendVerification db true otp1 true (some e) t0).2
        true otp2 true (some e) t1).1.status = 429
    ∧ (resendVerification (resendVerification db true otp1 true (some e) t0).2
        true otp2 true (some e) t1).1.retryAfter =
      some (jsCeilDiv1000 (t0 + 60000 - t1)) := by
  have he0 : e ≠ "" := by
    intro h; rw [h] at he; exact absurd he (by decide)
  have hpu : p.user_id = u.id := by
    have := List.find?_some hprof
    simpa [findProfile] using this
  have hrun1 : (resendVerification db true otp1 true (some e) t0).1.status = 200
      ∧ (resendVerification db true otp1 true (some e) t0).2 =
        { db with profiles := (updateProfiles
            (updateProfiles db.profiles u.id
              (fun q => { q with email_verification_code := some otp1,
                                 email_verification_sent_at := some t0,
                                 updated_at := some t0 })) u.id
            (fun q => { q with phone_verification_sent_at := some t0,
                               updated_at := some t0 })) } := by
    constructor <;>
      simp [resendVerification, jsFalsy, he0, he, hpe, hu, hconf, hprof, hp1, hp2]
  have hpe2 : (updateProfiles
      (updateProfiles db.profiles u.id
        (fun q => { q with email_verification_code := some otp1,
                           email_verification_sent_at := some t0,
                           updated_at := some t0 })) u.id
      (fun q => { q with phone_verification_sent_at := some t0,
                         updated_at := some t0 })).find? (fun q => q.email = jsToLower e) =
      some { p with email_verification_code := some otp1,
                    email_verification_sent_at := some t0,
                    phone_verification_sent_at := some t0,
                    updated_at := some t0 } := by
    rw [findByEmail_updateProfiles _ _ _
      (fun q => { q with phone_verification_sent_at := some t0, updated_at := some t0 })
      (fun q => rfl)]
    rw [findByEmail_updateProfiles _ _ _
      (fun q => { q with email_verification_code := some otp1,
                         email_verification_sent_at := some t0, updated_at := some t0 })
      (fun q => rfl)]
    rw [hpe]
    simp [hpu]
  have hprof2 : findProfile (updateProfiles
      (updateProfiles db.profiles u.id
        (fun q => { q with email_verification_code := some otp1,
                           email_verification_sent_at := some t0,
                           updated_at := some t0 })) u.id
      (fun q => { q with phone_verification_sent_at := some t0,
                         updated_at := some t0 })) u.id =
      some { p with email_verification_code := some otp1,
                    email_verification_sent_at := some t0,
                    phone_verification_sent_at := some t0,
                    updated_at := some t0 } := by
    rw [findProfile_updateProfiles _ _
      (fun q => { q with phone_verification_sent_at := some t0, updated_at := some t0 })
      (fun q => rfl)]
    rw [findProfile_updateProfiles _ _
      (fun q => { q with email_verification_code := some otp1,
                         email_verification_sent_at := some t0, updated_at := some t0 })
      (fun q => rfl)]
    rw [hprof]
    rfl
  have hrl : t1 - 60000 < t0 := by omega
  have h2 : (resendVerification (resendVerification db true otp1 true (some e) t0).2
      true otp2 true (some e) t1).1 =
      ⟨429, some ("Please wait " ++ toString (jsCeilDiv1000 (t0 + 60000 - t1)) ++
        " seconds before requesting another verification code."),
        some (jsCeilDiv1000 (t0 + 60000 - t1))⟩ := by
    rw [hrun1.2]
    simp [resendVerification, jsFalsy, he0, he, hpe2, hu, hconf, hprof2, hrl]
  exact ⟨hrun1.1, by rw [h2], by rw [h2]⟩

/-- Witness for C6 on a one-user database: a resend at 100000 ms succeeds
and a resend at 130000 ms is answered 429 with 30 seconds remaining. -/
theorem resend_verification_cooldown_429_witness :
    emailRegexTest "a@b.com" = true ∧ (100000 : Int) ≤ 130000 ∧ (130000 : Int) < 100000 + 60000
    ∧ ((resendVerification ⟨[⟨"u1", "a@b.com", none⟩],
          [⟨"u1", "a@b.com", "Jane", none, none, none, none⟩]⟩ true "111111" true
          (some "a@b.com") 100000).1.status = 200
      ∧ (resendVerification (resendVerification ⟨[⟨"u1", "a@b.com", none⟩],
            [⟨"u1", "a@b.com", "Jane", none, none, none, none⟩]⟩ true "111111" true
            (some "a@b.com") 100000).2 true "222222" true (some "a@b.com") 130000).1.status = 429
      ∧ (resendVerification (resendVerification ⟨[⟨"u1", "a@b.com", none⟩],
            [⟨"u1", "a@b.com", "Jane", none, none, none, none⟩]⟩ true "111111" true
            (some "a@b.com") 100000).2 true "222222" true (some "a@b.com") 130000).1.retryAfter =
        some (jsCeilDiv1000 (100000 + 60000 - 130000))) :=
  ⟨by decide, by decide, by decide,
    resend_verification_cooldown_429
      ⟨[⟨"u1", "a@b.com", none⟩], [⟨"u1", "a@b.com", "Jane", none, none, none, none⟩]⟩
      "111111" "222222" "a@b.com" ⟨"u1", "a@b.com", none⟩
      ⟨"u1", "a@b.com", "Jane", none, none, none, none⟩ 100000 130000
      (by decide) (by decide) (by decide) (by decide) rfl rfl rfl (by decide) (by decide)⟩
